import Mathlib

/-!
Shallow embedding of the loan-lifecycle state machine of the XRPL lending
platform (src/backend/src/services/loanService.js and
src/backend/src/models/Loan.js), together with theorems settling the
specification claims about it.

Amounts, rates, scores and timestamps are rationals (ℚ); timestamps are in
days. External collaborators (score oracle, XUMM/XRPL gateway) are passed in
as explicit outcome parameters, mirroring the spec's treatment of them as
opaque capabilities. Each definition mirrors one function of the source,
keeping its guard order and its arithmetic exactly.
-/

namespace XrplLending

/-- Loan state as used by the service layer (loanService.js writes the five
string values PENDING/ACTIVE/REPAID/DEFAULTED/REJECTED). -/
inductive Status
  | PENDING
  | ACTIVE
  | REPAID
  | DEFAULTED
  | REJECTED
deriving DecidableEq, Repr

/-- String form of a status, as written into the `status` field. -/
def Status.toStr : Status → String
  | .PENDING => "PENDING"
  | .ACTIVE => "ACTIVE"
  | .REPAID => "REPAID"
  | .DEFAULTED => "DEFAULTED"
  | .REJECTED => "REJECTED"

/-- The `status` enum of the persisted Loan schema
(src/backend/src/models/Loan.js lines 26-30): exactly four values. -/
def loanSchemaStatusEnum : List String :=
  ["PENDING", "ACTIVE", "REPAID", "DEFAULTED"]

/-- One entry of the loan's repayment ledger (the `repayments` array items as
used by loanService.js): amount, confirmed flag, rejected marker, the XUMM
payload id, and the settlement tx hash. `rid` stands for the Mongo `_id` by
which loanService looks records up. -/
structure Repayment where
  rid : Nat
  amount : ℚ
  timestamp : ℚ
  confirmed : Bool
  rejected : Bool
  rejectedAt : Option ℚ
  payloadId : Option String
  txHash : Option String
deriving DecidableEq, Repr

/-- The claim-transaction field of a default record: either a real ledger tx
hash, or one of the two placeholder markers loanService writes
(`ERROR_CLAIM_TX_...` on a failed escrow claim, `MISSING_ESCROW_TX_...` when
the loan has no escrow sequence). -/
inductive ClaimTx
  | realTx (h : String)
  | errorClaim
  | missingEscrow
deriving DecidableEq, Repr

/-- The `defaultDetails` record populated on transition to DEFAULTED. -/
structure DefaultDetails where
  totalOwed : ℚ
  totalRepaid : ℚ
  remainingOwed : ℚ
  collateralClaimed : ℚ
  uncoveredLoss : ℚ
  claimTxHash : ClaimTx
  defaultedAt : ℚ
  reason : String
deriving DecidableEq, Repr

/-- The Loan entity, with the fields loanService.js reads and writes. -/
structure Loan where
  borrower : String
  amount : ℚ
  collateralAmount : ℚ
  interestRate : ℚ
  term : ℚ
  status : Status
  createdAt : ℚ
  dueDate : ℚ
  escrowPayloadId : Option String
  escrowSequence : Option Nat
  collateralTxHash : Option String
  disbursementTxHash : Option String
  activationDate : Option ℚ
  repaidAt : Option ℚ
  collateralReleased : Bool
  collateralReleasedAt : Option ℚ
  repayments : List Repayment
  defaultDetails : Option DefaultDetails
deriving DecidableEq, Repr

/-- The typed errors thrown by loanService.js, named as in the spec's error
taxonomy (section 7). -/
inductive LoanError
  | NotFound
  | AuthorizationMismatch
  | StateConflict
  | RequestMismatch
  | SignatureVerificationFailed
  | IneligibleRisk
  | AmountExceedsCap
  | TermExceedsCap
  | CollateralTooHigh
  | CollateralTooLow
  | InvalidAmount
  | RepaymentExceedsBalance
  | RepaymentNotFound
  | ScoreUnavailable
  | GatewayUnavailable
  | NotPastDue
  | WithinGracePeriod
deriving DecidableEq, Repr

/-- The risk profile returned by the classifier. -/
structure RiskProfile where
  category : String
  interestRate : ℚ
  collateralRatio : ℚ
  maxLoanTerm : ℚ
  maxLoanAmount : ℚ
  eligibleForUndercollateralized : Bool
deriving DecidableEq, Repr

/-- loanService.calculateRiskCategory (loanService.js lines 19-68): maps a
PCA risk score to a risk category with fixed loan terms, via four ordered
threshold checks. -/
def calculateRiskCategory (pcaScore : ℚ) : RiskProfile :=
  if pcaScore ≤ 36.2 then
    { category := "Very Low Risk", interestRate := 0.12, collateralRatio := 0.60,
      maxLoanTerm := 90, maxLoanAmount := 1000, eligibleForUndercollateralized := true }
  else if pcaScore ≤ 44.5 then
    { category := "Low Risk", interestRate := 0.18, collateralRatio := 0.70,
      maxLoanTerm := 60, maxLoanAmount := 750, eligibleForUndercollateralized := true }
  else if pcaScore ≤ 56.5 then
    { category := "Medium Risk", interestRate := 0.25, collateralRatio := 0.80,
      maxLoanTerm := 45, maxLoanAmount := 500, eligibleForUndercollateralized := true }
  else if pcaScore ≤ 80 then
    { category := "High Risk", interestRate := 0.35, collateralRatio := 0.90,
      maxLoanTerm := 30, maxLoanAmount := 300, eligibleForUndercollateralized := true }
  else
    { category := "Very High Risk", interestRate := 0, collateralRatio := 1.5,
      maxLoanTerm := 0, maxLoanAmount := 0, eligibleForUndercollateralized := false }

/-- Total owed as computed by the repayment paths
(createRepaymentRequest lines 345-347 and processRepaymentSignature lines
533-535): `interestAmount = amount * (interestRate / 100)`,
`totalOwed = amount + interestAmount`. -/
def totalOwedRepaymentPath (l : Loan) : ℚ :=
  l.amount + l.amount * (l.interestRate / 100)

/-- The interest-rate normalization of handleDefaultedLoan (lines 740-745):
a stored rate greater than 1 is taken to be a percentage and divided by 100,
otherwise it is used as a decimal fraction. -/
def normalizeRate (r : ℚ) : ℚ :=
  if r > 1 then r / 100 else r

/-- Total owed as computed by handleDefaultedLoan (lines 747-748). -/
def totalOwedDefaultPath (l : Loan) : ℚ :=
  l.amount + l.amount * normalizeRate l.interestRate

/-- Total owed as computed by the legacy processRepayment (line 669):
`amount * (1 + interestRate)`. -/
def totalOwedProcessRepayment (l : Loan) : ℚ :=
  l.amount * (1 + l.interestRate)

/-- Sum of the amounts of ALL repayment records, confirmed or not
(createRepaymentRequest line 350 reduces over every entry with no
confirmed/rejected filter). -/
def sumAllRepayments (rs : List Repayment) : ℚ :=
  rs.foldl (fun s p => s + p.amount) 0

/-- Sum of the amounts of the confirmed repayment records only
(processRepaymentSignature lines 538-540, handleDefaultedLoan lines 734-737). -/
def sumConfirmedRepayments (rs : List Repayment) : ℚ :=
  rs.foldl (fun s p => if p.confirmed then s + p.amount else s) 0

/-- The remaining balance computed by createRepaymentRequest (line 353):
`max(0, totalOwed - totalRepaid)` with totalRepaid summing all records. -/
def remainingBalance (l : Loan) : ℚ :=
  max 0 (totalOwedRepaymentPath l - sumAllRepayments l.repayments)

/-- loanService.createRepaymentRequest (lines 329-406), with the gateway's
payment-payload creation assumed to return `payloadUuid`. Guard order as in
the source: NotFound, not-ACTIVE, borrower mismatch, amount ≤ 0,
amount > remainingBalance; on success the loan is persisted with a new
unconfirmed repayment record carrying the payload id. -/
def createRepaymentRequest (loanOpt : Option Loan) (amount : ℚ)
    (borrowerAddress : String) (newRid : Nat) (now : ℚ)
    (payloadUuid : String) : Except LoanError Loan :=
  match loanOpt with
  | none => .error .NotFound
  | some loan =>
    if loan.status ≠ .ACTIVE then .error .StateConflict
    else if loan.borrower ≠ borrowerAddress then .error .AuthorizationMismatch
    else if amount ≤ 0 then .error .InvalidAmount
    else if amount > remainingBalance loan then .error .RepaymentExceedsBalance
    else
      .ok { loan with
              repayments := loan.repayments ++
                [{ rid := newRid, amount := amount, timestamp := now,
                   confirmed := false, rejected := false, rejectedAt := none,
                   payloadId := some payloadUuid, txHash := none }] }

/-- Outcome of the gateway's verifySignature call. -/
structure VerifyResult where
  signed : Bool
  txid : String
deriving DecidableEq, Repr

/-- Outcome of the gateway's disburseLoan call. -/
structure DisburseResult where
  txHash : String
  sequence : Nat
deriving DecidableEq, Repr

/-- The gateway calls executeLoan may issue, in order. -/
inductive GatewayCall
  | verifySig
  | disburse
deriving DecidableEq, Repr

/-- Result of executeLoan: the returned value or thrown error, together with
the trace of gateway calls issued before returning. -/
structure ExecOutcome where
  result : Except LoanError Loan
  gatewayCalls : List GatewayCall
deriving Repr

/-- loanService.executeLoan (lines 233-265), the onLockConfirmed handler.
Guard order as in the source: NotFound, borrower mismatch, not-PENDING,
payload-id mismatch, then the two gateway calls (verify, disburse) and the
transition to ACTIVE. -/
def executeLoan (loanOpt : Option Loan) (payloadId walletAddress : String)
    (verification : VerifyResult) (disb : DisburseResult) (now : ℚ) :
    ExecOutcome :=
  match loanOpt with
  | none => ⟨.error .NotFound, []⟩
  | some loan =>
    if loan.borrower ≠ walletAddress then ⟨.error .AuthorizationMismatch, []⟩
    else if loan.status ≠ .PENDING then ⟨.error .StateConflict, []⟩
    else if loan.escrowPayloadId ≠ some payloadId then ⟨.error .RequestMismatch, []⟩
    else if ¬ verification.signed then
      ⟨.error .SignatureVerificationFailed, [.verifySig]⟩
    else
      ⟨.ok { loan with
               status := .ACTIVE,
               collateralTxHash := some verification.txid,
               disbursementTxHash := some disb.txHash,
               activationDate := some now,
               escrowSequence := some disb.sequence },
       [.verifySig, .disburse]⟩

/-- loanService.rejectLoan (lines 620-638), the onLockRejected handler:
NotFound if missing, StateConflict if not PENDING, else sets the status
string to REJECTED and saves. No gateway call is made. -/
def rejectLoan (loanOpt : Option Loan) : Except LoanError Loan :=
  match loanOpt with
  | none => .error .NotFound
  | some loan =>
    if loan.status ≠ .PENDING then .error .StateConflict
    else .ok { loan with status := .REJECTED }

/-- In-place update of the record at index `i`, as the source's
`loan.repayments[repaymentIndex] = ...` mutation. -/
def modifyAt (rs : List Repayment) (i : Nat) (f : Repayment → Repayment) :
    List Repayment :=
  match rs, i with
  | [], _ => []
  | r :: t, 0 => f r :: t
  | r :: t, Nat.succ n => r :: modifyAt t n f

/-- loanService.rejectRepayment (lines 585-613): marks the record rejected
(not removed); the loan status is untouched. -/
def rejectRepayment (loanOpt : Option Loan) (repaymentId : Nat) (now : ℚ) :
    Except LoanError Loan :=
  match loanOpt with
  | none => .error .NotFound
  | some loan =>
    match loan.repayments.findIdx? (fun r => r.rid = repaymentId) with
    | none => .error .RepaymentNotFound
    | some i =>
      .ok { loan with
              repayments := modifyAt loan.repayments i
                (fun r => { r with rejected := true, rejectedAt := some now }) }

/-- loanService.processRepaymentSignature (lines 509-577), the
onRepaymentConfirmed handler. `releaseOk` is the outcome of the gateway's
releaseCollateral call (false = it threw). Steps as in the source: NotFound,
record lookup, signature verification, mark confirmed, recompute the
confirmed total against totalOwed; on full repayment set REPAID and
repaid-at, and attempt the collateral release, whose failure is caught and
does not fail the call. -/
def processRepaymentSignature (loanOpt : Option Loan) (repaymentId : Nat)
    (verification : VerifyResult) (releaseOk : Bool) (now : ℚ) :
    Except LoanError Loan :=
  match loanOpt with
  | none => .error .NotFound
  | some loan =>
    match loan.repayments.findIdx? (fun r => r.rid = repaymentId) with
    | none => .error .RepaymentNotFound
    | some i =>
      if ¬ verification.signed then .error .SignatureVerificationFailed
      else
        let rs := modifyAt loan.repayments i
          (fun r => { r with confirmed := true, txHash := some verification.txid })
        let totalOwed := totalOwedRepaymentPath loan
        let totalRepaid := sumConfirmedRepayments rs
        if totalRepaid ≥ totalOwed then
          match loan.escrowSequence with
          | some _ =>
            if releaseOk then
              .ok { loan with
                      repayments := rs, status := .REPAID,
                      repaidAt := some now, collateralReleased := true,
                      collateralReleasedAt := some now }
            else
              .ok { loan with
                      repayments := rs, status := .REPAID,
                      repaidAt := some now }
          | none =>
            .ok { loan with
                    repayments := rs, status := .REPAID,
                    repaidAt := some now }
        else
          .ok { loan with repayments := rs }

/-- The DEFAULTED state written by handleDefaultedLoan (lines 731-799): the
default record computed from the confirmed repayments, the normalized rate,
and the collateral, with `max 0` clamps as in the source. -/
def applyDefault (loan : Loan) (claimTx : ClaimTx) (now : ℚ) (force : Bool) :
    Loan :=
  let totalRepaid := sumConfirmedRepayments loan.repayments
  let totalOwed := totalOwedDefaultPath loan
  let remainingOwed := max 0 (totalOwed - totalRepaid)
  let uncoveredLoss := max 0 (remainingOwed - loan.collateralAmount)
  { loan with
      status := .DEFAULTED,
      defaultDetails := some
        { totalOwed := totalOwed, totalRepaid := totalRepaid,
          remainingOwed := remainingOwed,
          collateralClaimed := loan.collateralAmount,
          uncoveredLoss := uncoveredLoss,
          claimTxHash := claimTx, defaultedAt := now,
          reason := if force then "Administrative action"
                    else "Loan past due date with insufficient repayment" } }

/-- loanService.handleDefaultedLoan (lines 693-809). `gracePeriodDays` is
DEFAULT_GRACE_PERIOD_DAYS (3 in the source's default); `claimOutcome` is the
gateway's claimCollateralEscrow outcome (error = it threw). Guard order as
in the source: NotFound, not-ACTIVE, and unless forced, not-yet-past-due
then within-grace-period. The default record is computed from the confirmed
repayments and the normalized rate; a failed or impossible escrow claim is
recorded as a placeholder marker and never blocks the transition. -/
def handleDefaultedLoan (loanOpt : Option Loan) (forceDefault : Bool)
    (now gracePeriodDays : ℚ) (claimOutcome : Except Unit String) :
    Except LoanError Loan :=
  match loanOpt with
  | none => .error .NotFound
  | some loan =>
    if loan.status ≠ .ACTIVE then .error .StateConflict
    else if ¬ forceDefault ∧ now < loan.dueDate then .error .NotPastDue
    else if ¬ forceDefault ∧ now < loan.dueDate + gracePeriodDays then
      .error .WithinGracePeriod
    else
      let claimTxHash : ClaimTx :=
        match loan.escrowSequence with
        | some _ =>
          match claimOutcome with
          | .ok h => .realTx h
          | .error _ => .errorClaim
        | none => .missingEscrow
      .ok (applyDefault loan claimTxHash now forceDefault)

/-- Result of createLoanApplication: the returned value or thrown error,
together with the Loan left persisted in the store when the call ends (none
when no Loan document was saved). -/
structure CreateOutcome where
  result : Except LoanError Loan
  persistedLoan : Option Loan
deriving Repr

/-- loanService.createLoanApplication (lines 78-158). `cachedScore` is the
user's stored credit score (none or 0 forces a fetch from the score oracle,
whose outcome is `oracleScore`; error = ScoreUnavailable). After the
validation guards the Loan is saved in PENDING, and only then is the
collateral-lock (escrow) payload requested from the gateway
(`escrowOutcome`; error = GatewayUnavailable): a gateway failure at that
point propagates but the saved Loan stays in the store. -/
def createLoanApplication (cachedScore : Option ℚ) (oracleScore : Except Unit ℚ)
    (borrowerWalletAddress : String) (amount term collateralAmount : ℚ)
    (now : ℚ) (escrowOutcome : Except Unit String) : CreateOutcome :=
  let scoreRes : Except Unit ℚ :=
    match cachedScore with
    | some s => if s = 0 then oracleScore else .ok s
    | none => oracleScore
  match scoreRes with
  | .error _ => ⟨.error .ScoreUnavailable, none⟩
  | .ok creditScore =>
    let riskProfile := calculateRiskCategory creditScore
    if ¬ riskProfile.eligibleForUndercollateralized then
      ⟨.error .IneligibleRisk, none⟩
    else if amount > riskProfile.maxLoanAmount then
      ⟨.error .AmountExceedsCap, none⟩
    else if term > riskProfile.maxLoanTerm then
      ⟨.error .TermExceedsCap, none⟩
    else if collateralAmount > amount then
      ⟨.error .CollateralTooHigh, none⟩
    else if collateralAmount < amount * riskProfile.collateralRatio then
      ⟨.error .CollateralTooLow, none⟩
    else
      let newLoan : Loan :=
        { borrower := borrowerWalletAddress, amount := amount,
          collateralAmount := collateralAmount,
          interestRate := riskProfile.interestRate, term := term,
          status := .PENDING, createdAt := now, dueDate := now + term,
          escrowPayloadId := none, escrowSequence := none,
          collateralTxHash := none, disbursementTxHash := none,
          activationDate := none, repaidAt := none,
          collateralReleased := false, collateralReleasedAt := none,
          repayments := [], defaultDetails := none }
      match escrowOutcome with
      | .error _ => ⟨.error .GatewayUnavailable, some newLoan⟩
      | .ok uuid =>
        let savedLoan := { newLoan with escrowPayloadId := some uuid }
        ⟨.ok savedLoan, some savedLoan⟩

/-! Concrete instances used to settle the claims on explicit inputs. -/

/-- A baseline loan: Very Low Risk terms (rate 0.12, 1000 principal,
600 collateral), PENDING, empty repayment ledger. -/
def baseLoan : Loan :=
  { borrower := "alice", amount := 1000, collateralAmount := 600,
    interestRate := 0.12, term := 30, status := .PENDING, createdAt := 0,
    dueDate := 30, escrowPayloadId := none, escrowSequence := none,
    collateralTxHash := none, disbursementTxHash := none,
    activationDate := none, repaidAt := none, collateralReleased := false,
    collateralReleasedAt := none, repayments := [], defaultDetails := none }

/-- The spec's scenario loan: 1000 principal at rate 0.12. -/
def loanC1 : Loan := baseLoan

/-- An ACTIVE 1000-at-0.12 loan whose only repayment attempt (500) was
rejected. -/
def loanC2 : Loan :=
  { baseLoan with
      status := .ACTIVE,
      repayments := [{ rid := 0, amount := 500, timestamp := 1,
                       confirmed := false, rejected := true,
                       rejectedAt := some 2, payloadId := some "p0",
                       txHash := none }] }

/-- An ACTIVE 100-at-rate-0 loan with no repayment attempts. -/
def loanC2w : Loan :=
  { baseLoan with
      status := .ACTIVE, amount := 100, collateralAmount := 60,
      interestRate := 0 }

/-- A PENDING loan, input of rejectLoan. -/
def loanC4 : Loan := baseLoan

/-- An ACTIVE loan with an outstanding unconfirmed repayment attempt of 100
(neither confirmed nor rejected). -/
def loanC6 : Loan :=
  { baseLoan with
      status := .ACTIVE, interestRate := 0,
      repayments := [{ rid := 0, amount := 100, timestamp := 1,
                       confirmed := false, rejected := false,
                       rejectedAt := none, payloadId := some "p0",
                       txHash := none }] }

/-- An already-ACTIVE loan holding its lock request id, input of the second
onLockConfirmed invocation. -/
def loanC7 : Loan :=
  { baseLoan with
      status := .ACTIVE, escrowPayloadId := some "pl",
      escrowSequence := some 7 }

/-- An ACTIVE loan past due (dueDate 30) with collateral in escrow. -/
def loanC8 : Loan :=
  { baseLoan with status := .ACTIVE, escrowSequence := some 7 }

/-- An ACTIVE 100-at-rate-0 loan with one unconfirmed repayment attempt of
100 and collateral in escrow, input of onRepaymentConfirmed. -/
def loanC9 : Loan :=
  { baseLoan with
      status := .ACTIVE, amount := 100, collateralAmount := 60,
      interestRate := 0, escrowSequence := some 5,
      repayments := [{ rid := 0, amount := 100, timestamp := 1,
                       confirmed := false, rejected := false,
                       rejectedAt := none, payloadId := some "p0",
                       txHash := none }] }

/-- The PENDING loan createLoanApplication persists for a Very Low Risk
borrower applying for 1000 over 30 days with 600 collateral at time 0,
before the escrow payload id is attached. -/
def loanC3expected : Loan := baseLoan

/-- The loan persisted when a Very Low Risk borrower applies for 1000 with
collateral exactly equal to the amount (escrow payload "u" attached). -/
def loanC5expected : Loan :=
  { baseLoan with
      collateralAmount := 1000, escrowPayloadId := some "u" }

/-! Theorems settling the claims. -/

/-- C1: the repayment-path operations compute
`totalOwed = amount + amount * (interestRate / 100)`, so for the spec's
scenario loan (1000 at rate 0.12) they owe 1001.2 and not 1120, while the
default path (which normalizes the rate) owes 1120: the three owed
computations do NOT agree, refuting the claim that the same
`principal * (1 + interestRate)` formula is used consistently. -/
theorem totalOwed_formula_inconsistent :
    totalOwedRepaymentPath loanC1 = 1001.2 ∧
    totalOwedDefaultPath loanC1 = 1120 ∧
    totalOwedProcessRepayment loanC1 = 1120 ∧
    ¬ totalOwedRepaymentPath loanC1 = totalOwedDefaultPath loanC1 := by
  norm_num [totalOwedRepaymentPath, totalOwedDefaultPath,
            totalOwedProcessRepayment, normalizeRate, loanC1, baseLoan]

/-- C4: rejectLoan does transition a PENDING loan by writing the status
string REJECTED, but the persisted schema's status enum
(src/backend/src/models/Loan.js) has only the four values
PENDING/ACTIVE/REPAID/DEFAULTED — REJECTED is not a member, so the claimed
five-value enum does not hold and the write is outside the schema. -/
theorem rejectLoan_status_not_in_schema_enum :
    rejectLoan (some loanC4) = .ok { loanC4 with status := .REJECTED } ∧
    Status.toStr .REJECTED = "REJECTED" ∧
    loanSchemaStatusEnum = ["PENDING", "ACTIVE", "REPAID", "DEFAULTED"] ∧
    "REJECTED" ∉ loanSchemaStatusEnum := by
  refine ⟨rfl, rfl, rfl, by decide⟩

/-- C10: the risk classifier, a total function of the score, is monotone
over the eligible bands: a lower score gets an interest rate and a
collateral requirement no larger, and loan-amount and term caps no
smaller, than any higher eligible score. -/
theorem calculateRiskCategory_monotone (s1 s2 : ℚ) (hle : s1 ≤ s2)
    (h1 : (calculateRiskCategory s1).eligibleForUndercollateralized = true)
    (h2 : (calculateRiskCategory s2).eligibleForUndercollateralized = true) :
    (calculateRiskCategory s1).interestRate ≤ (calculateRiskCategory s2).interestRate ∧
    (calculateRiskCategory s1).collateralRatio ≤ (calculateRiskCategory s2).collateralRatio ∧
    (calculateRiskCategory s2).maxLoanAmount ≤ (calculateRiskCategory s1).maxLoanAmount ∧
    (calculateRiskCategory s2).maxLoanTerm ≤ (calculateRiskCategory s1).maxLoanTerm := by
  unfold calculateRiskCategory at h1 h2 ⊢
  split_ifs at h1 h2 ⊢ <;> simp_all <;>
    first
    | (exfalso; linarith)
    | (norm_num; done)

/-- Witness for C10 at scores 20 and 50. -/
theorem calculateRiskCategory_monotone_witness :
    (calculateRiskCategory 20).interestRate ≤ (calculateRiskCategory 50).interestRate ∧
    (calculateRiskCategory 20).collateralRatio ≤ (calculateRiskCategory 50).collateralRatio ∧
    (calculateRiskCategory 50).maxLoanAmount ≤ (calculateRiskCategory 20).maxLoanAmount ∧
    (calculateRiskCategory 50).maxLoanTerm ≤ (calculateRiskCategory 20).maxLoanTerm :=
  calculateRiskCategory_monotone 20 50 (by norm_num)
    (by norm_num [calculateRiskCategory]) (by norm_num [calculateRiskCategory])

/-- C7: executeLoan (onLockConfirmed) fails NotFound on a missing loan,
AuthorizationMismatch when the signer is not the borrower, StateConflict
when the loan is not PENDING, and RequestMismatch when the requestId
differs from the stored lock request id — in every failure case with an
empty gateway-call trace, so a second invocation on an already-ACTIVE loan
returns StateConflict without re-verifying or re-disbursing. -/
theorem executeLoan_guards (loan : Loan) (pid w : String) (v : VerifyResult)
    (d : DisburseResult) (now : ℚ) :
    executeLoan none pid w v d now = ⟨.error .NotFound, []⟩ ∧
    (loan.borrower ≠ w →
      executeLoan (some loan) pid w v d now = ⟨.error .AuthorizationMismatch, []⟩) ∧
    (loan.borrower = w → loan.status ≠ .PENDING →
      executeLoan (some loan) pid w v d now = ⟨.error .StateConflict, []⟩) ∧
    (loan.borrower = w → loan.status = .PENDING → loan.escrowPayloadId ≠ some pid →
      executeLoan (some loan) pid w v d now = ⟨.error .RequestMismatch, []⟩) ∧
    (loan.borrower = w → loan.status = .ACTIVE →
      executeLoan (some loan) pid w v d now = ⟨.error .StateConflict, []⟩ ∧
      (executeLoan (some loan) pid w v d now).gatewayCalls = []) := by
  refine ⟨rfl, ?_, ?_, ?_, ?_⟩
  · intro hb
    simp [executeLoan, hb]
  · intro hb hs
    simp [executeLoan, hb, hs]
  · intro hb hs hp
    simp [executeLoan, hb, hs, hp]
  · intro hb hs
    have hns : loan.status ≠ .PENDING := by
      rw [hs]; exact fun h => Status.noConfusion h
    constructor
    · simp [executeLoan, hb, hns]
    · simp [executeLoan, hb, hns]

/-- Witness for C7: the second onLockConfirmed call on the already-ACTIVE
loanC7 with its own request id and borrower returns StateConflict and
issues no gateway call. -/
theorem executeLoan_guards_witness :
    executeLoan (some loanC7) "pl" "alice" ⟨true, "tx1"⟩ ⟨"tx2", 9⟩ 5 =
      ⟨.error .StateConflict, []⟩ :=
  ((executeLoan_guards loanC7 "pl" "alice" ⟨true, "tx1"⟩ ⟨"tx2", 9⟩ 5).2.2.2.2
    rfl rfl).1

/-- C2 counterexample: for the ACTIVE loan loanC2 (1000 at rate 0.12 with a
single rejected repayment attempt of 500) the claim's balance is
1000 * 1.12 - 0 = 1120 and the claim predicts a request of exactly 1120
succeeds; the code instead computes the balance as
1000 + 1000 * 0.12 / 100 - 500 = 501.2 (counting the rejected attempt and
dividing the rate by 100) and fails the request with
RepaymentExceedsBalance. -/
theorem createRepaymentRequest_spec_balance_rejected :
    createRepaymentRequest (some loanC2) 1120 "alice" 1 3 "u" =
      .error .RepaymentExceedsBalance ∧
    totalOwedProcessRepayment loanC2 - sumConfirmedRepayments loanC2.repayments
      = 1120 := by
  have hst : loanC2.status = Status.ACTIVE := rfl
  have hbr : loanC2.borrower = "alice" := rfl
  have hbal : remainingBalance loanC2 = 501.2 := by
    norm_num [remainingBalance, totalOwedRepaymentPath, sumAllRepayments,
              loanC2, baseLoan]
  constructor
  · norm_num [createRepaymentRequest, hst, hbr, hbal]
  · norm_num [totalOwedProcessRepayment, sumConfirmedRepayments, loanC2,
              baseLoan]

/-- C2 amended: for an ACTIVE loan and matching borrower, with a positive
amount, createRepaymentRequest fails with RepaymentExceedsBalance exactly
when the amount strictly exceeds the code's remaining balance
(`max 0 (amount + amount * rate / 100 - sum of ALL repayment attempts)`,
rejected and unconfirmed attempts included), and succeeds — appending one
new unconfirmed record — when the amount equals that balance. -/
theorem createRepaymentRequest_balance_boundary (loan : Loan) (amount : ℚ)
    (w : String) (newRid : Nat) (now : ℚ) (uuid : String)
    (hact : loan.status = .ACTIVE) (hb : loan.borrower = w)
    (hpos : 0 < amount) :
    (amount > remainingBalance loan →
      createRepaymentRequest (some loan) amount w newRid now uuid =
        .error .RepaymentExceedsBalance) ∧
    (amount = remainingBalance loan →
      createRepaymentRequest (some loan) amount w newRid now uuid =
        .ok { loan with
                repayments := loan.repayments ++
                  [{ rid := newRid, amount := amount, timestamp := now,
                     confirmed := false, rejected := false,
                     rejectedAt := none, payloadId := some uuid,
                     txHash := none }] }) := by
  have hnle : ¬ amount ≤ 0 := not_le.mpr hpos
  constructor
  · intro hgt
    simp [createRepaymentRequest, hact, hb, hnle, hgt]
  · intro heq
    have hngt : ¬ amount > remainingBalance loan := by
      rw [heq]
      exact lt_irrefl _
    simp [createRepaymentRequest, hact, hb, hnle, hngt]

/-- Witness for C2 amended: on the ACTIVE loan loanC2w (100 at rate 0, no
attempts) the remaining balance is 100 and a request of exactly 100
succeeds, appending the unconfirmed record. -/
theorem createRepaymentRequest_balance_boundary_witness :
    createRepaymentRequest (some loanC2w) 100 "alice" 1 3 "u" =
      .ok { loanC2w with
              repayments := [{ rid := 1, amount := 100, timestamp := 3,
                               confirmed := false, rejected := false,
                               rejectedAt := none, payloadId := some "u",
                               txHash := none }] } := by
  have h := (createRepaymentRequest_balance_boundary loanC2w 100 "alice" 1 3 "u"
    rfl rfl (by norm_num)).2
    (by norm_num [remainingBalance, totalOwedRepaymentPath, sumAllRepayments,
                  loanC2w, baseLoan])
  have hnil : loanC2w.repayments = [] := rfl
  simpa [hnil] using h

/-- C6 counterexample: loanC6 already has an outstanding repayment attempt
(100, neither confirmed nor rejected), yet a second repayment request of 50
succeeds and appends a second unconfirmed record, where the claim requires
it to fail. -/
theorem createRepaymentRequest_second_pending_succeeds :
    createRepaymentRequest (some loanC6) 50 "alice" 1 3 "u" =
      .ok { loanC6 with
              repayments := loanC6.repayments ++
                [{ rid := 1, amount := 50, timestamp := 3,
                   confirmed := false, rejected := false,
                   rejectedAt := none, payloadId := some "u",
                   txHash := none }] } ∧
    (∃ r ∈ loanC6.repayments, r.confirmed = false ∧ r.rejected = false) := by
  have hst : loanC6.status = Status.ACTIVE := rfl
  have hbr : loanC6.borrower = "alice" := rfl
  have hbal : remainingBalance loanC6 = 900 := by
    norm_num [remainingBalance, totalOwedRepaymentPath, sumAllRepayments,
              loanC6, baseLoan]
  constructor
  · norm_num [createRepaymentRequest, hst, hbr, hbal]
  · exact ⟨{ rid := 0, amount := 100, timestamp := 1, confirmed := false,
             rejected := false, rejectedAt := none, payloadId := some "p0",
             txHash := none },
           by simp [loanC6, baseLoan], rfl, rfl⟩

/-- C6 amended: createRepaymentRequest has no outstanding-repayment guard:
even when the ledger already holds a record that is neither confirmed nor
rejected, a request by the borrower on an ACTIVE loan for a positive amount
within the remaining balance succeeds and appends a further unconfirmed
record (only the balance computation, which counts pending amounts, limits
double counting). -/
theorem createRepaymentRequest_no_pending_guard (loan : Loan) (amount : ℚ)
    (w : String) (newRid : Nat) (now : ℚ) (uuid : String)
    (hact : loan.status = .ACTIVE) (hb : loan.borrower = w)
    (hpos : 0 < amount) (hle : amount ≤ remainingBalance loan)
    (hpending : ∃ r ∈ loan.repayments, r.confirmed = false ∧ r.rejected = false) :
    createRepaymentRequest (some loan) amount w newRid now uuid =
      .ok { loan with
              repayments := loan.repayments ++
                [{ rid := newRid, amount := amount, timestamp := now,
                   confirmed := false, rejected := false,
                   rejectedAt := none, payloadId := some uuid,
                   txHash := none }] } := by
  have hnle : ¬ amount ≤ 0 := not_le.mpr hpos
  have hngt : ¬ amount > remainingBalance loan := not_lt.mpr hle
  simp [createRepaymentRequest, hact, hb, hnle, hngt]

/-- Witness for C6 amended, at the inputs of the counterexample. -/
theorem createRepaymentRequest_no_pending_guard_witness :
    createRepaymentRequest (some loanC6) 50 "alice" 2 4 "u2" =
      .ok { loanC6 with
              repayments := loanC6.repayments ++
                [{ rid := 2, amount := 50, timestamp := 4,
                   confirmed := false, rejected := false,
                   rejectedAt := none, payloadId := some "u2",
                   txHash := none }] } :=
  createRepaymentRequest_no_pending_guard loanC6 50 "alice" 2 4 "u2"
    rfl rfl (by norm_num)
    (by norm_num [remainingBalance, totalOwedRepaymentPath, sumAllRepayments,
                  loanC6, baseLoan])
    ⟨{ rid := 0, amount := 100, timestamp := 1, confirmed := false,
       rejected := false, rejectedAt := none, payloadId := some "p0",
       txHash := none },
     by simp [loanC6, baseLoan], rfl, rfl⟩

/-- C3 counterexample: a Very Low Risk borrower (cached score 20) applies
for 1000 over 30 days with 600 collateral, and the gateway's
collateral-lock-request creation fails after validation; the error
propagates as the claim says, but the freshly saved PENDING Loan remains
persisted, refuting "no Loan record remains persisted". -/
theorem createLoanApplication_persists_on_gateway_failure :
    createLoanApplication (some 20) (.error ()) "alice" 1000 30 600 0
      (.error ()) = ⟨.error .GatewayUnavailable, some loanC3expected⟩ := by
  norm_num [createLoanApplication, calculateRiskCategory, loanC3expected,
            baseLoan]

/-- C3 amended: a ScoreUnavailable failure aborts cleanly with no Loan
persisted, but a gateway failure during collateral-lock-request creation —
after a valid application has been saved — propagates GatewayUnavailable
while leaving the just-created PENDING Loan in the store. -/
theorem createLoanApplication_abort_and_persist (s : ℚ)
    (oracle : Except Unit ℚ) (w : String)
    (amount term collateralAmount now : ℚ) (hs : s ≠ 0)
    (helig : (calculateRiskCategory s).eligibleForUndercollateralized = true)
    (hamt : amount ≤ (calculateRiskCategory s).maxLoanAmount)
    (hterm : term ≤ (calculateRiskCategory s).maxLoanTerm)
    (hhi : collateralAmount ≤ amount)
    (hlo : amount * (calculateRiskCategory s).collateralRatio ≤ collateralAmount) :
    createLoanApplication none (.error ()) w amount term collateralAmount now
      (.error ()) = ⟨.error .ScoreUnavailable, none⟩ ∧
    createLoanApplication (some s) oracle w amount term collateralAmount now
      (.error ()) =
      ⟨.error .GatewayUnavailable,
       some { borrower := w, amount := amount,
              collateralAmount := collateralAmount,
              interestRate := (calculateRiskCategory s).interestRate,
              term := term, status := .PENDING, createdAt := now,
              dueDate := now + term, escrowPayloadId := none,
              escrowSequence := none, collateralTxHash := none,
              disbursementTxHash := none, activationDate := none,
              repaidAt := none, collateralReleased := false,
              collateralReleasedAt := none, repayments := [],
              defaultDetails := none }⟩ := by
  have h1 : ¬ amount > (calculateRiskCategory s).maxLoanAmount := not_lt.mpr hamt
  have h2 : ¬ term > (calculateRiskCategory s).maxLoanTerm := not_lt.mpr hterm
  have h3 : ¬ collateralAmount > amount := not_lt.mpr hhi
  have h4 : ¬ collateralAmount < amount * (calculateRiskCategory s).collateralRatio :=
    not_lt.mpr hlo
  exact ⟨rfl, by simp [createLoanApplication, hs, helig, h1, h2, h3, h4]⟩

/-- Witness for C3 amended at the counterexample's inputs. -/
theorem createLoanApplication_abort_and_persist_witness :
    createLoanApplication none (.error ()) "alice" 1000 30 600 0 (.error ()) =
      ⟨.error .ScoreUnavailable, none⟩ ∧
    createLoanApplication (some 20) (.ok 20) "alice" 1000 30 600 0
      (.error ()) =
      ⟨.error .GatewayUnavailable,
       some { borrower := "alice", amount := 1000, collateralAmount := 600,
              interestRate := (calculateRiskCategory 20).interestRate,
              term := 30, status := .PENDING, createdAt := 0,
              dueDate := 0 + 30, escrowPayloadId := none,
              escrowSequence := none, collateralTxHash := none,
              disbursementTxHash := none, activationDate := none,
              repaidAt := none, collateralReleased := false,
              collateralReleasedAt := none, repayments := [],
              defaultDetails := none }⟩ :=
  createLoanApplication_abort_and_persist 20 (.ok 20) "alice" 1000 30 600 0
    (by norm_num) (by norm_num [calculateRiskCategory])
    (by norm_num [calculateRiskCategory]) (by norm_num [calculateRiskCategory])
    (by norm_num) (by norm_num [calculateRiskCategory])

/-- C5: createLoanApplication accepts an application whose collateral is
EQUAL to the loan amount (the source checks `collateralAmount > amount`,
not `>=`), persisting a PENDING loan with collateralAmount = amount = 1000
for a Very Low Risk borrower, where the claim requires rejection with
CollateralTooHigh. -/
theorem createLoanApplication_accepts_collateral_equal_to_amount :
    createLoanApplication (some 20) (.error ()) "alice" 1000 30 1000 0
      (.ok "u") = ⟨.ok loanC5expected, some loanC5expected⟩ ∧
    loanC5expected.collateralAmount = loanC5expected.amount ∧
    loanC5expected.status = .PENDING := by
  refine ⟨?_, by norm_num [loanC5expected, baseLoan], rfl⟩
  norm_num [createLoanApplication, calculateRiskCategory, loanC5expected,
            baseLoan]

/-- C8: handleDefaultedLoan is only valid from ACTIVE (StateConflict
otherwise, with no state change); the non-forced path fails without
transitioning whenever now < dueDate + gracePeriod (as NotPastDue before
the due date, WithinGracePeriod inside the grace window); and when the
transition proceeds with collateral in escrow and the claim call failing,
the loan still becomes DEFAULTED with the errorClaim marker recorded in
place of the claim tx hash. -/
theorem handleDefaultedLoan_guards_and_claim_failure (loan : Loan)
    (force : Bool) (now g : ℚ) (c : Except Unit String) (seq : Nat) :
    handleDefaultedLoan none force now g c = .error .NotFound ∧
    (loan.status ≠ .ACTIVE →
      handleDefaultedLoan (some loan) force now g c = .error .StateConflict) ∧
    (loan.status = .ACTIVE → 0 ≤ g → now < loan.dueDate + g →
      handleDefaultedLoan (some loan) false now g c =
        .error (if now < loan.dueDate then .NotPastDue else .WithinGracePeriod)) ∧
    (loan.status = .ACTIVE → loan.escrowSequence = some seq →
      (force = true ∨ (¬ now < loan.dueDate ∧ ¬ now < loan.dueDate + g)) →
      handleDefaultedLoan (some loan) force now g (.error ()) =
        .ok (applyDefault loan .errorClaim now force) ∧
      (applyDefault loan .errorClaim now force).status = .DEFAULTED) := by
  refine ⟨rfl, ?_, ?_, ?_⟩
  · intro h
    simp [handleDefaultedLoan, h]
  · intro hact hg hlt
    by_cases hd : now < loan.dueDate
    · simp [handleDefaultedLoan, hact, hd]
    · simp [handleDefaultedLoan, hact, hd, hlt]
  · intro hact hseq h
    rcases h with h | ⟨h1, h2⟩
    · subst h
      exact ⟨by simp [handleDefaultedLoan, hact, hseq], rfl⟩
    · exact ⟨by simp [handleDefaultedLoan, hact, hseq, h1, h2], rfl⟩

/-- Witness for C8: the overdue ACTIVE loanC8 (due at 30, grace 3, now 40)
is swept into DEFAULTED by the non-forced path even though the escrow
claim fails, with the errorClaim marker recorded. -/
theorem handleDefaultedLoan_guards_and_claim_failure_witness :
    handleDefaultedLoan (some loanC8) false 40 3 (.error ()) =
      .ok (applyDefault loanC8 .errorClaim 40 false) ∧
    (applyDefault loanC8 .errorClaim 40 false).status = .DEFAULTED :=
  (handleDefaultedLoan_guards_and_claim_failure loanC8 false 40 3
    (.error ()) 7).2.2.2 rfl rfl
    (Or.inr ⟨by norm_num [loanC8, baseLoan], by norm_num [loanC8, baseLoan]⟩)

/-- C9: when a signed repayment is confirmed on an ACTIVE loan and the
recomputed confirmed total reaches totalOwed, processRepaymentSignature
transitions the loan to REPAID and sets repaid-at even though the
collateral release fails: the call succeeds and the resulting loan is
REPAID with collateralReleased still false. -/
theorem processRepaymentSignature_release_failure_nonblocking (loan : Loan)
    (repaymentId i seq : Nat) (v : VerifyResult) (now : ℚ)
    (hact : loan.status = .ACTIVE)
    (hrel : loan.collateralReleased = false)
    (hseq : loan.escrowSequence = some seq)
    (hfind : loan.repayments.findIdx? (fun r => r.rid = repaymentId) = some i)
    (hsig : v.signed = true)
    (hfull : totalOwedRepaymentPath loan ≤
      sumConfirmedRepayments (modifyAt loan.repayments i
        (fun r => { r with confirmed := true, txHash := some v.txid }))) :
    processRepaymentSignature (some loan) repaymentId v false now =
      .ok { loan with
              repayments := modifyAt loan.repayments i
                (fun r => { r with confirmed := true, txHash := some v.txid }),
              status := .REPAID, repaidAt := some now } ∧
    ({ loan with
         repayments := modifyAt loan.repayments i
           (fun r => { r with confirmed := true, txHash := some v.txid }),
         status := .REPAID, repaidAt := some now } : Loan).collateralReleased
      = false := by
  constructor
  · simp [processRepaymentSignature, hfind, hsig, hfull, hseq]
  · exact hrel

/-- Witness for C9: loanC9 (owes 100) with its 100 repayment confirmed while
the release fails ends REPAID. -/
theorem processRepaymentSignature_release_failure_nonblocking_witness :
    processRepaymentSignature (some loanC9) 0 ⟨true, "tx"⟩ false 7 =
      .ok { loanC9 with
              repayments := modifyAt loanC9.repayments 0
                (fun r => { r with confirmed := true, txHash := some "tx" }),
              status := .REPAID, repaidAt := some 7 } ∧
    ({ loanC9 with
         repayments := modifyAt loanC9.repayments 0
           (fun r => { r with confirmed := true, txHash := some "tx" }),
         status := .REPAID, repaidAt := some 7 } : Loan).collateralReleased
      = false :=
  processRepaymentSignature_release_failure_nonblocking loanC9 0 0 5
    ⟨true, "tx"⟩ 7 rfl rfl rfl rfl rfl
    (by norm_num [totalOwedRepaymentPath, sumConfirmedRepayments, modifyAt,
                  loanC9, baseLoan])

end XrplLending
